import Mathlib

/-!
# Private DAO Voting — verification of the spec's claims against the code

Shallow embedding of the repository's Rust sources:

* `Coordinator` — the Solana Anchor program
  `programs/private-dao-voting/src/lib.rs` (`create_proposal`, `cast_vote`,
  `vote_callback`, `reveal_results`, `reveal_results_callback`,
  `dev_cast_vote`, Anchor account constraints for `CastVote` / `DevCastVote`).
* `VotingCircuit` — the Arcis MPC circuit `arcis/voting-circuit/src/lib.rs`
  (`cast_vote`, `finalize_and_reveal`, `finalize_with_threshold`).
* `EncIx` — the encrypted-instructions embodiment `src/lib.rs`
  (`init_tally`, `vote`).

Conventions of the embedding:

* `u64` / `u32` / `u8` values are `Nat`; where the Rust source performs plain
  (unchecked) arithmetic on machine integers, the result is taken `% 2^64`
  (resp. `% 2^32`), i.e. release-mode wrapping semantics — the on-chain
  program's deliberate use of `checked_add` / `checked_mul` shows overflow
  checks are not globally enabled.  Where the source uses `checked_*`
  operations, the embedding uses `Option`-valued `checkedAdd64` /
  `checkedMul64` mirroring them exactly.
* `i64` timestamps are `Int`.
* `Pubkey` values are abstracted to `Nat` (only compared for equality).
* Fallible instructions return `Except`.  Anchor account-constraint failures
  (the `#[account(...)]` attribute checks, which run before the handler body)
  are modelled by `InstrError.anchorConstraint` and, for an `init` on a PDA
  that already exists, `InstrError.accountAlreadyInUse`; handler-body
  `require!` failures carry the program's own `VotingError`.
* CPI calls that queue an MXE computation, event emissions, and the `winner`
  value computed only for an event are external effects with no account-state
  consequence; they are not part of the state transition.
-/

namespace PrivateDaoVoting

/-- Rust u64 maximum, `u64::MAX`. -/
def U64MAX : Nat := 18446744073709551615

/-- The modulus `2^64` of wrapping `u64` arithmetic. -/
def U64MOD : Nat := 18446744073709551616

/-- The modulus `2^32` of wrapping `u32` arithmetic. -/
def U32MOD : Nat := 4294967296

/-- Rust `u64::checked_add`. -/
def checkedAdd64 (a b : Nat) : Option Nat :=
  if a + b ≤ U64MAX then some (a + b) else none

/-- Rust `u64::checked_mul`. -/
def checkedMul64 (a b : Nat) : Option Nat :=
  if a * b ≤ U64MAX then some (a * b) else none

/-- Returns `true` iff an `Except` value is `ok`. -/
def isOk {ε α : Type} : Except ε α → Bool
  | .ok _ => true
  | .error _ => false

/-- The program's `VotingError` enum (`programs/private-dao-voting/src/lib.rs`). -/
inductive VotingError where
  | VotingClosed
  | VotingEnded
  | VotingNotEnded
  | Unauthorized
  | AlreadyVoted
  | InvalidTokenAccount
  | InvalidTokenMint
  | InsufficientTokenBalance
  | QuorumNotReached
  | ActiveDelegation
  | ArithmeticOverflow
  | VoteTallyMismatch
  | InvalidThreshold
  | InvalidPrivacyLevel
  | InvalidExecutionDelay
  | ThresholdNotMet
  | DepositAlreadyProcessed
  | NotYetRevealed
deriving DecidableEq

/-- Failure of an instruction: either an Anchor account-constraint failure
(which happens before the handler body runs) or a program `VotingError`. -/
inductive InstrError where
  | accountAlreadyInUse
  | anchorConstraint
  | program (e : VotingError)
deriving DecidableEq

/-- The `Proposal` account (all fields of the Rust struct except the PDA `bump`). -/
structure Proposal where
  id : Nat
  authority : Nat
  title : String
  description : String
  votingEndsAt : Int
  isActive : Bool
  isRevealed : Bool
  totalVotes : Nat
  gateMint : Nat
  minBalance : Nat
  mxeProgramId : Nat
  yesVotes : Nat
  noVotes : Nat
  abstainVotes : Nat
  quorum : Nat
  thresholdBps : Nat
  privacyLevel : Nat
  passed : Bool
  discussionUrl : String
  depositAmount : Nat
  depositReturned : Bool
  executionDelay : Int
  executed : Bool
deriving DecidableEq

/-- The `Tally` account (PDA `bump` omitted). -/
structure Tally where
  proposal : Nat
  encryptedData : Nat
  nonce : Nat
deriving DecidableEq

/-- The `VoteRecord` account (PDA `bump` omitted). -/
structure VoteRecord where
  proposal : Nat
  voter : Nat
  votedAt : Int
  encryptedChoice : Nat
  nonce : Nat
  voterPubkey : Nat
deriving DecidableEq

/-- The `Delegation` account (PDA `bump` omitted). -/
structure Delegation where
  delegator : Nat
  delegate : Nat
  createdAt : Int
deriving DecidableEq

/-- An SPL token account, as far as the program inspects it. -/
structure TokenAccount where
  owner : Nat
  mint : Nat
  amount : Nat
deriving DecidableEq

/-- A raw `AccountInfo` as inspected by `dev_cast_vote`'s remaining-accounts
delegation check: only its data length and owning program matter. -/
structure AccountInfo where
  dataLen : Nat
  owner : Nat
deriving DecidableEq

/-- Ledger state around a single proposal: the proposal account (addressed by
`proposalKey`), its tally account, and all `VoteRecord` / `Delegation`
accounts of the program. -/
structure CoordState where
  proposalKey : Nat
  proposal : Proposal
  tally : Tally
  voteRecords : List VoteRecord
  delegations : List Delegation
deriving DecidableEq

/-- Whether a `VoteRecord` PDA for `(proposal, voter)` already exists — the
account Anchor would find at seeds `[VOTE_RECORD_SEED, proposal, voter]`. -/
def hasVoteRecord (st : CoordState) (voter : Nat) : Bool :=
  st.voteRecords.any fun r => r.proposal == st.proposalKey && r.voter == voter

/-- Embeds `create_proposal` (`programs/private-dao-voting/src/lib.rs:100-196`).
Validates `threshold_bps`, `privacy_level` and `execution_delay`, then
initializes the proposal and queues the `init_tally` computation.  The clock
is read only for the computation offset, never for validation, hence the
unused `_now`.  `quorum` and the revealed counters are not assigned by the
handler; the freshly `init`-allocated account leaves them zeroed. -/
def createProposal (_now : Int) (proposalId : Nat) (title description : String)
    (votingEndsAt : Int) (gateMint minBalance mxeProgramId : Nat)
    (thresholdBps privacyLevel : Nat) (discussionUrl : String)
    (executionDelay : Int) (authority : Nat) : Except VotingError Proposal :=
  if 0 < thresholdBps ∧ thresholdBps ≤ 10000 then
    if privacyLevel ≤ 2 then
      if 0 ≤ executionDelay then
        .ok { id := proposalId, authority := authority, title := title,
              description := description, votingEndsAt := votingEndsAt,
              isActive := true, isRevealed := false, totalVotes := 0,
              gateMint := gateMint, minBalance := minBalance,
              mxeProgramId := mxeProgramId,
              yesVotes := 0, noVotes := 0, abstainVotes := 0, quorum := 0,
              thresholdBps := thresholdBps, privacyLevel := privacyLevel,
              passed := false, discussionUrl := discussionUrl,
              depositAmount := 0, depositReturned := false,
              executionDelay := executionDelay, executed := false }
      else .error .InvalidExecutionDelay
    else .error .InvalidPrivacyLevel
  else .error .InvalidThreshold

/-- Embeds `cast_vote` (`programs/private-dao-voting/src/lib.rs:214-300`) together
with the `CastVote` account constraints (lines 800-859).  Anchor first checks
the `voter_token_account` constraints and performs the `init` of the
`vote_record` PDA (failing if it already exists); the handler body then
checks `is_active`, the deadline, and the token gate, records the vote, and
queues the `vote` computation.  There is no delegation check on this path. -/
def castVote (st : CoordState) (voter : Nat) (tok : TokenAccount) (now : Int)
    (encryptedChoice nonce voterPubkey : Nat) : Except InstrError CoordState :=
  if ¬ (tok.owner = voter ∧ tok.mint = st.proposal.gateMint) then
    .error .anchorConstraint
  else if hasVoteRecord st voter then
    .error .accountAlreadyInUse
  else if ¬ st.proposal.isActive then
    .error (.program .VotingClosed)
  else if ¬ (now < st.proposal.votingEndsAt) then
    .error (.program .VotingEnded)
  else if ¬ (tok.owner = voter) then
    .error (.program .InvalidTokenAccount)
  else if ¬ (tok.mint = st.proposal.gateMint) then
    .error (.program .InvalidTokenMint)
  else if ¬ (st.proposal.minBalance ≤ tok.amount) then
    .error (.program .InsufficientTokenBalance)
  else
    .ok { st with
          voteRecords := st.voteRecords ++
            [{ proposal := st.proposalKey, voter := voter, votedAt := now,
               encryptedChoice := encryptedChoice, nonce := nonce,
               voterPubkey := voterPubkey }] }

/-- Embeds `vote_callback` (`programs/private-dao-voting/src/lib.rs:303-318`):
replaces the encrypted tally and increments the public vote counter
(plain `+= 1` on a `u64`, hence wrapping). -/
def voteCallback (st : CoordState) (newEncryptedTally nonce : Nat) : CoordState :=
  { st with
    tally := { st.tally with encryptedData := newEncryptedTally, nonce := nonce },
    proposal := { st.proposal with
                  totalVotes := (st.proposal.totalVotes + 1) % U64MOD } }

/-- Embeds `reveal_results` (`programs/private-dao-voting/src/lib.rs:321-376`):
requires the caller to be the proposal authority and the deadline to have
passed, then queues the `reveal_result` computation.  It mutates no account
state and performs no `is_revealed` check. -/
def revealResults (p : Proposal) (caller : Nat) (now : Int) :
    Except VotingError Unit :=
  if ¬ (caller = p.authority) then .error .Unauthorized
  else if ¬ (p.votingEndsAt ≤ now) then .error .VotingNotEnded
  else .ok ()

/-- Embeds `reveal_results_callback` (`programs/private-dao-voting/src/lib.rs:380-448`):
checks `yes + no + abstain == total` with checked additions, enforces quorum
when set, evaluates the threshold with `checked_mul`, and writes the revealed
aggregate, `passed`, `is_active := false`, `is_revealed := true`.  The
`winner` value feeds only the emitted event. -/
def revealResultsCallback (p : Proposal) (yesCount noCount abstainCount totalVotes : Nat) :
    Except VotingError Proposal :=
  match (checkedAdd64 yesCount noCount).bind (fun x => checkedAdd64 x abstainCount) with
  | none => .error .ArithmeticOverflow
  | some computedTotal =>
    if ¬ (computedTotal = totalVotes) then .error .VoteTallyMismatch
    else if 0 < p.quorum ∧ totalVotes < p.quorum then .error .QuorumNotReached
    else
      match checkedAdd64 yesCount noCount with
      | none => .error .ArithmeticOverflow
      | some nonAbstain =>
        match (if 0 < nonAbstain then
                 (checkedMul64 yesCount 10000).map
                   (fun prod => decide (p.thresholdBps ≤ prod / nonAbstain))
               else some false) with
        | none => .error .ArithmeticOverflow
        | some thresholdMet =>
          let quorumMet := (p.quorum == 0) || decide (p.quorum ≤ totalVotes)
          .ok { p with isActive := false, isRevealed := true,
                       yesVotes := yesCount, noVotes := noCount,
                       abstainVotes := abstainCount,
                       passed := quorumMet && thresholdMet }

/-- Embeds `dev_cast_vote` (`programs/private-dao-voting/src/lib.rs:565-629`) with
the `DevCastVote` account constraints.  Identical to `castVote` except that,
between the deadline check and the token gate, it looks for the voter's
delegation PDA among the remaining accounts and rejects when that account is
present, non-empty and owned by this program.  `delegationInfo` is the result
of that `remaining_accounts` search: `none` when the caller did not supply
the delegation account. -/
def devCastVote (st : CoordState) (voter : Nat) (tok : TokenAccount) (now : Int)
    (encryptedChoice nonce voterPubkey : Nat) (programId : Nat)
    (delegationInfo : Option AccountInfo) : Except InstrError CoordState :=
  if ¬ (tok.owner = voter ∧ tok.mint = st.proposal.gateMint) then
    .error .anchorConstraint
  else if hasVoteRecord st voter then
    .error .accountAlreadyInUse
  else if ¬ st.proposal.isActive then
    .error (.program .VotingClosed)
  else if ¬ (now < st.proposal.votingEndsAt) then
    .error (.program .VotingEnded)
  else if (match delegationInfo with
           | some acct => decide (0 < acct.dataLen) && (acct.owner == programId)
           | none => false) then
    .error (.program .ActiveDelegation)
  else if ¬ (tok.owner = voter) then
    .error (.program .InvalidTokenAccount)
  else if ¬ (tok.mint = st.proposal.gateMint) then
    .error (.program .InvalidTokenMint)
  else if ¬ (st.proposal.minBalance ≤ tok.amount) then
    .error (.program .InsufficientTokenBalance)
  else
    .ok { st with
          tally := { st.tally with nonce := nonce },
          proposal := { st.proposal with
                        totalVotes := (st.proposal.totalVotes + 1) % U64MOD },
          voteRecords := st.voteRecords ++
            [{ proposal := st.proposalKey, voter := voter, votedAt := now,
               encryptedChoice := encryptedChoice, nonce := nonce,
               voterPubkey := voterPubkey }] }

namespace VotingCircuit

/-- The `VotingState` of `arcis/voting-circuit/src/lib.rs`: four secret-shared
`u64` counters. -/
structure VotingState where
  encryptedYesVotes : Nat
  encryptedNoVotes : Nat
  encryptedAbstainVotes : Nat
  encryptedTotalVotes : Nat
deriving DecidableEq

/-- Well-formedness: each counter is a `u64` value. -/
def Wf (s : VotingState) : Prop :=
  s.encryptedYesVotes < U64MOD ∧ s.encryptedNoVotes < U64MOD ∧
  s.encryptedAbstainVotes < U64MOD ∧ s.encryptedTotalVotes < U64MOD

instance (s : VotingState) : Decidable (Wf s) := by
  unfold Wf; infer_instance

/-- The `Enc<bool> → Enc<u64>` cast: `true → 1`, `false → 0`. -/
def boolToU64 (b : Bool) : Nat := if b then 1 else 0

/-- Embeds `cast_vote` (`arcis/voting-circuit/src/lib.rs:101-127`): three independent
encrypted equality tests cast to `u64`, all added unconditionally, plus an
unconditional `+ 1` on the total (wrapping `u64` addition). -/
def cast_vote (state : VotingState) (encryptedVote : Nat) : VotingState :=
  let isYes := boolToU64 (encryptedVote == 1)
  let isNo := boolToU64 (encryptedVote == 0)
  let isAbstain := boolToU64 (encryptedVote == 2)
  { encryptedYesVotes := (state.encryptedYesVotes + isYes) % U64MOD,
    encryptedNoVotes := (state.encryptedNoVotes + isNo) % U64MOD,
    encryptedAbstainVotes := (state.encryptedAbstainVotes + isAbstain) % U64MOD,
    encryptedTotalVotes := (state.encryptedTotalVotes + 1) % U64MOD }

/-- Embeds `finalize_and_reveal` (`arcis/voting-circuit/src/lib.rs:145-154`). -/
def finalize_and_reveal (s : VotingState) : Nat × Nat × Nat × Nat :=
  (s.encryptedYesVotes, s.encryptedNoVotes, s.encryptedAbstainVotes,
   s.encryptedTotalVotes)

/-- Embeds `finalize_with_threshold` (`arcis/voting-circuit/src/lib.rs:204-226`):
reveals the aggregate and computes the governance decision with plain
(wrapping) `u64` arithmetic: `non_abstain = yes + no`,
`threshold_met = non_abstain > 0 && (yes * 10000) / non_abstain >= threshold_bps`. -/
def finalize_with_threshold (s : VotingState) (quorum thresholdBps : Nat) :
    Nat × Nat × Nat × Nat × Bool :=
  let yesVotes := s.encryptedYesVotes
  let noVotes := s.encryptedNoVotes
  let abstainVotes := s.encryptedAbstainVotes
  let totalVotes := s.encryptedTotalVotes
  let quorumMet := (quorum == 0) || decide (quorum ≤ totalVotes)
  let nonAbstain := (yesVotes + noVotes) % U64MOD
  let thresholdMet := decide (0 < nonAbstain) &&
    decide (thresholdBps ≤ ((yesVotes * 10000) % U64MOD) / nonAbstain)
  (yesVotes, noVotes, abstainVotes, totalVotes, quorumMet && thresholdMet)

end VotingCircuit

namespace EncIx

/-- The `VoteTally` of `src/lib.rs`: four `u32` counters, field order as in the
source (`no_count`, `yes_count`, `abstain_count`, `total_votes`). -/
structure VoteTally where
  no_count : Nat
  yes_count : Nat
  abstain_count : Nat
  total_votes : Nat
deriving DecidableEq

/-- Embeds `init_tally` (`src/lib.rs:56-67`). -/
def init_tally : VoteTally :=
  { no_count := 0, yes_count := 0, abstain_count := 0, total_votes := 0 }

/-- Embeds `vote` (`src/lib.rs:79-102`): `if choice == 0 { no += 1 } else if
choice == 1 { yes += 1 } else { abstain += 1 }; total += 1` — wrapping `u32`
arithmetic. -/
def vote (tally : VoteTally) (choice : Nat) : VoteTally :=
  let t1 :=
    if choice = 0 then
      { tally with no_count := (tally.no_count + 1) % U32MOD }
    else if choice = 1 then
      { tally with yes_count := (tally.yes_count + 1) % U32MOD }
    else
      { tally with abstain_count := (tally.abstain_count + 1) % U32MOD }
  { t1 with total_votes := (t1.total_votes + 1) % U32MOD }

end EncIx

/-- The Governance Evaluator as the spec states it (§4.2), for refinement
comparison: exact (unbounded) arithmetic, truncating division, short-circuit
on `nonAbstain == 0`. -/
def specGovernanceDecision (yes no _abstain total quorum thresholdBps : Nat) : Bool :=
  let quorumMet := (quorum == 0) || decide (quorum ≤ total)
  let nonAbstain := yes + no
  let thresholdMet := decide (0 < nonAbstain) &&
    decide (thresholdBps ≤ yes * 10000 / nonAbstain)
  quorumMet && thresholdMet

/-- Keys under which `VoteRecord` PDAs are derived: `(proposal, voter)`. -/
def recordKeys (st : CoordState) : List (Nat × Nat) :=
  st.voteRecords.map fun r => (r.proposal, r.voter)

-- ==================== sample states ====================

/-- A freshly created active proposal (authority 1, gate mint 11,
minimum balance 1, deadline 100, no quorum, 50% threshold). -/
def baseProposal : Proposal :=
  { id := 1, authority := 1, title := "t", description := "d",
    votingEndsAt := 100, isActive := true, isRevealed := false, totalVotes := 0,
    gateMint := 11, minBalance := 1, mxeProgramId := 0,
    yesVotes := 0, noVotes := 0, abstainVotes := 0, quorum := 0,
    thresholdBps := 5000, privacyLevel := 0, passed := false,
    discussionUrl := "", depositAmount := 0, depositReturned := false,
    executionDelay := 0, executed := false }

/-- A proposal whose reveal has already happened (`isRevealed = true`,
deadline 3 long past). -/
def revealedP : Proposal :=
  { baseProposal with votingEndsAt := 3, isActive := false, isRevealed := true }

/-- What `reveal_results_callback` writes on `revealedP` for the all-zero
aggregate: the reveal is simply re-performed. -/
def revealedAgain : Proposal :=
  { revealedP with
    isActive := false, isRevealed := true,
    yesVotes := 0, noVotes := 0, abstainVotes := 0, passed := false }

/-- Variant of `baseProposal` with a quorum of 5 votes. -/
def lowTurnoutP : Proposal := { baseProposal with quorum := 5 }

/-- The tally account bound to the sample proposal (address 5). -/
def tally0 : Tally := { proposal := 5, encryptedData := 0, nonce := 0 }

/-- Ledger state in the voting window where voter 7 has an active
delegation to 9 and has not voted yet. -/
def delegatedState : CoordState :=
  { proposalKey := 5, proposal := baseProposal, tally := tally0,
    voteRecords := [],
    delegations := [{ delegator := 7, delegate := 9, createdAt := 0 }] }

/-- Voter 7's gate-token account: owned by 7, correct mint, balance 5. -/
def tok7 : TokenAccount := { owner := 7, mint := 11, amount := 5 }

/-- The delegation PDA's `AccountInfo` as a caller would supply it to
`dev_cast_vote` (non-empty, owned by the program, id 3). -/
def delegAcct : AccountInfo := { dataLen := 73, owner := 3 }

/-- State `delegatedState` after voter 7's vote has been accepted by `castVote`. -/
def votedState : CoordState :=
  { delegatedState with
    voteRecords := [{ proposal := 5, voter := 7, votedAt := 0,
                      encryptedChoice := 21, nonce := 22, voterPubkey := 23 }] }

/-- A circuit state holding 2^60 YES votes. -/
def bigYesState : VotingCircuit.VotingState :=
  { encryptedYesVotes := 1152921504606846976, encryptedNoVotes := 0,
    encryptedAbstainVotes := 0, encryptedTotalVotes := 1152921504606846976 }

-- ==================== helper lemmas ====================

theorem checkedAdd64_pos {a b : Nat} (h : a + b ≤ U64MAX) :
    checkedAdd64 a b = some (a + b) := by
  simp [checkedAdd64, h]

theorem checkedAdd64_neg {a b : Nat} (h : ¬ a + b ≤ U64MAX) :
    checkedAdd64 a b = none := by
  simp [checkedAdd64, h]

theorem checkedMul64_pos {a b : Nat} (h : a * b ≤ U64MAX) :
    checkedMul64 a b = some (a * b) := by
  simp [checkedMul64, h]

theorem checkedMul64_neg {a b : Nat} (h : ¬ a * b ≤ U64MAX) :
    checkedMul64 a b = none := by
  simp [checkedMul64, h]

/-- Full characterization of a successful `reveal_results_callback`: the
delivered aggregate must be consistent, must meet the quorum when one is set,
and the threshold product must not overflow; the written proposal is then
determined. -/
theorem revealCallback_ok_iff (p : Proposal) (y n a t : Nat) (ht : t ≤ U64MAX)
    (p' : Proposal) :
    revealResultsCallback p y n a t = .ok p' ↔
      (y + n + a = t ∧ (p.quorum = 0 ∨ p.quorum ≤ t) ∧
       (y + n = 0 ∨ y * 10000 ≤ U64MAX) ∧
       p' = { p with
              isActive := false, isRevealed := true,
              yesVotes := y, noVotes := n, abstainVotes := a,
              passed := ((p.quorum == 0) || decide (p.quorum ≤ t)) &&
                        (decide (0 < y + n) &&
                         decide (p.thresholdBps ≤ y * 10000 / (y + n))) }) := by
  by_cases h1 : y + n ≤ U64MAX
  · by_cases h2 : (y + n) + a ≤ U64MAX
    · by_cases h3 : y + n + a = t
      · by_cases hq : 0 < p.quorum ∧ t < p.quorum
        · have hq' : ¬ (p.quorum = 0 ∨ p.quorum ≤ t) := by omega
          simp [revealResultsCallback, checkedAdd64_pos h1, checkedAdd64_pos h2,
                Option.bind, h3, hq, hq']
        · have hq' : p.quorum = 0 ∨ p.quorum ≤ t := by omega
          by_cases hpos : 0 < y + n
          · by_cases hm : y * 10000 ≤ U64MAX
            · simp [revealResultsCallback, checkedAdd64_pos h1, checkedAdd64_pos h2,
                    Option.bind, h3, hq, hq', hpos, checkedMul64_pos hm, hm,
                    Option.map, eq_comm]
            · simp only [revealResultsCallback, checkedAdd64_pos h1, checkedAdd64_pos h2,
                    Option.bind, checkedMul64_neg hm, Option.map, hpos, if_true,
                    if_pos h3, if_neg hq, h3]
              simp [h3, hq]
              intro _ h
              rcases h with ⟨hy, _⟩ | h
              · omega
              · exact absurd h hm
          · have hy : y = 0 := by omega
            have hn : n = 0 := by omega
            subst hy; subst hn
            simp only [Nat.zero_add] at h2 h3
            subst h3
            simp [revealResultsCallback,
                  checkedAdd64_pos (show (0 : Nat) + 0 ≤ U64MAX by omega),
                  checkedAdd64_pos (show (0 : Nat) + a ≤ U64MAX by omega),
                  Option.bind, hq, hq', eq_comm]
      · simp [revealResultsCallback, checkedAdd64_pos h1, checkedAdd64_pos h2,
              Option.bind, h3]
    · have h3 : ¬ (y + n + a = t) := by omega
      simp [revealResultsCallback, checkedAdd64_pos h1, checkedAdd64_neg h2,
            Option.bind, h3]
  · have h3 : ¬ (y + n + a = t) := by
      have : U64MAX < y + n := Nat.lt_of_not_le h1
      omega
    simp [revealResultsCallback, checkedAdd64_neg h1, Option.bind, h3]

-- ==================== claims ====================

/-- C1 (counterexample): the claim says that once a proposal has
`isRevealed = true` any further finalize/reveal request or reveal callback
is rejected.  On `revealedP` (already revealed, deadline passed) the
authority's `reveal_results` request succeeds and a further
`reveal_results_callback` also succeeds, re-performing the reveal. -/
theorem c1_revealed_proposal_reveals_again :
    revealResults revealedP 1 9 = .ok () ∧
    revealResultsCallback revealedP 0 0 0 0 = .ok revealedAgain ∧
    revealedP.isRevealed = true := by
  refine ⟨rfl, rfl, rfl⟩

/-- C1 (amended): finalize/reveal is permitted only by the proposal authority
and only at or after the voting deadline, and the reveal callback sets
`isRevealed := true`; `isRevealed` is never reset by `cast_vote` (which does
not touch the proposal) or `vote_callback` — but neither `reveal_results`
nor the callback checks `isRevealed`, so a further reveal is not rejected. -/
theorem c1_reveal_guards_and_monotonicity :
    (∀ (p : Proposal) (caller : Nat) (now : Int),
        revealResults p caller now = .ok () →
        caller = p.authority ∧ p.votingEndsAt ≤ now) ∧
    (∀ (p : Proposal) (y n a t : Nat) (p' : Proposal),
        revealResultsCallback p y n a t = .ok p' →
        p'.isRevealed = true ∧ p'.isActive = false) ∧
    (∀ (st : CoordState) (v : Nat) (tok : TokenAccount) (now : Int)
        (c nn vp : Nat) (st' : CoordState),
        castVote st v tok now c nn vp = .ok st' → st'.proposal = st.proposal) ∧
    (∀ (st : CoordState) (d nn : Nat),
        (voteCallback st d nn).proposal.isRevealed = st.proposal.isRevealed) := by
  refine ⟨?_, ?_, ?_, ?_⟩
  · intro p caller now h
    unfold revealResults at h
    split_ifs at h with hc hd
    exact ⟨hc, hd⟩
  · intro p y n a t p' h
    unfold revealResultsCallback at h
    split at h
    · exact absurd h (by simp)
    · split_ifs at h with hmm hqq
      split at h
      · exact absurd h (by simp)
      · split at h
        · exact absurd h (by simp)
        · rw [Except.ok.injEq] at h
          subst h
          exact ⟨rfl, rfl⟩
  · intro st v tok now c nn vp st' h
    unfold castVote at h
    split_ifs at h
    rw [Except.ok.injEq] at h
    subst h
    rfl
  · intro st d nn
    rfl

/-- C1 (witness). -/
theorem c1_reveal_guards_witness :
    ((1 : Nat) = revealedP.authority ∧ revealedP.votingEndsAt ≤ 9) ∧
    (revealedAgain.isRevealed = true ∧ revealedAgain.isActive = false) ∧
    votedState.proposal = delegatedState.proposal :=
  ⟨c1_reveal_guards_and_monotonicity.1 revealedP 1 9 rfl,
   c1_reveal_guards_and_monotonicity.2.1 revealedP 0 0 0 0 revealedAgain rfl,
   c1_reveal_guards_and_monotonicity.2.2.1 delegatedState 7 tok7 0 21 22 23
     votedState rfl⟩

/-- C2 (counterexample): the claim says the consistency check is the only
ground on which a reveal callback is rejected and that a consistent aggregate
below quorum is still accepted.  On `lowTurnoutP` (quorum 5) the consistent
aggregate (1,0,0,1) is rejected with `QuorumNotReached` and `isRevealed`
stays false. -/
theorem c2_consistent_callback_rejected_on_quorum :
    revealResultsCallback lowTurnoutP 1 0 0 1 = .error .QuorumNotReached ∧
    1 + 0 + 0 = 1 ∧
    lowTurnoutP.isRevealed = false := by
  refine ⟨rfl, rfl, rfl⟩

/-- C2 (amended): the reveal callback succeeds exactly when the delivered
aggregate is consistent (`yes + no + abstain == total`), meets the quorum
when one is set, and its threshold product `yes * 10000` does not overflow
`u64`; on success it records the aggregate and flips `isRevealed` to true;
otherwise the proposal is left unchanged. -/
theorem c2_callback_success_characterization (p : Proposal) (y n a t : Nat)
    (ht : t ≤ U64MAX) :
    (isOk (revealResultsCallback p y n a t) = true ↔
      (y + n + a = t ∧ (p.quorum = 0 ∨ p.quorum ≤ t) ∧
       (y + n = 0 ∨ y * 10000 ≤ U64MAX))) ∧
    (∀ p', revealResultsCallback p y n a t = .ok p' →
       p' = { p with
              isActive := false, isRevealed := true,
              yesVotes := y, noVotes := n, abstainVotes := a,
              passed := ((p.quorum == 0) || decide (p.quorum ≤ t)) &&
                        (decide (0 < y + n) &&
                         decide (p.thresholdBps ≤ y * 10000 / (y + n))) }) := by
  constructor
  · constructor
    · intro h
      cases hr : revealResultsCallback p y n a t with
      | error e => rw [hr] at h; exact absurd h (by simp [isOk])
      | ok q =>
        have := (revealCallback_ok_iff p y n a t ht q).mp hr
        exact ⟨this.1, this.2.1, this.2.2.1⟩
    · intro h
      rw [(revealCallback_ok_iff p y n a t ht _).mpr
            ⟨h.1, h.2.1, h.2.2, rfl⟩]
      rfl
  · intro p' h
    exact ((revealCallback_ok_iff p y n a t ht p').mp h).2.2.2

/-- C2 (witness). -/
theorem c2_callback_success_witness :
    isOk (revealResultsCallback lowTurnoutP 3 2 5 10) = true :=
  (c2_callback_success_characterization lowTurnoutP 3 2 5 10 (by decide)).1.mpr
    (by refine ⟨rfl, Or.inr (by decide), Or.inr (by decide)⟩)

/-- C3 (code evaluation): the claim says `castVote` is rejected whenever an
active `Delegation` exists for the caller.  The production `cast_vote`
contains no delegation check: on `delegatedState`, where voter 7 has an
active delegation to 9, the vote is accepted and a `VoteRecord` is created.
Only the dev-mode `dev_cast_vote` rejects — and only when the caller supplies
the delegation account among the remaining accounts. -/
theorem c3_cast_vote_ignores_delegation :
    castVote delegatedState 7 tok7 0 21 22 23 = .ok votedState ∧
    devCastVote delegatedState 7 tok7 0 21 22 23 3 (some delegAcct) =
      .error (.program .ActiveDelegation) ∧
    delegatedState.delegations =
      [{ delegator := 7, delegate := 9, createdAt := 0 }] := by
  refine ⟨rfl, rfl, rfl⟩

/-- C4 (code evaluation): the claim says `createProposal` fails with a
validation error whenever the requested deadline is at or before the current
time.  `create_proposal` performs no deadline-versus-clock validation: with
the clock at 1000 and `voting_ends_at = 5` (already in the past) creation
succeeds and the proposal is initialized. -/
theorem c4_create_proposal_accepts_past_deadline :
    isOk (createProposal 1000 1 "t" "d" 5 11 1 0 5000 0 "" 0 42) = true ∧
    createProposal 1000 1 "t" "d" 5 11 1 0 5000 0 "" 0 42 =
      .ok { id := 1, authority := 42, title := "t", description := "d",
            votingEndsAt := 5, isActive := true, isRevealed := false,
            totalVotes := 0, gateMint := 11, minBalance := 1,
            mxeProgramId := 0, yesVotes := 0, noVotes := 0, abstainVotes := 0,
            quorum := 0, thresholdBps := 5000, privacyLevel := 0,
            passed := false, discussionUrl := "", depositAmount := 0,
            depositReturned := false, executionDelay := 0,
            executed := false } := by
  refine ⟨rfl, rfl⟩

/-- C5: a second `castVote` for the same `(proposal, voter)` fails (the
Anchor `init` of the `vote_record` PDA rejects an already-existing account)
regardless of the vote value; a successful `castVote` requires the record to
be absent, only appends the new record (old records are untouched), and
preserves uniqueness of `(proposal, voter)` keys. -/
theorem c5_double_vote_rejected_and_records_unique :
    (∀ (st : CoordState) (voter : Nat) (tok : TokenAccount) (now : Int)
        (c nn vp : Nat),
        hasVoteRecord st voter = true →
        tok.owner = voter → tok.mint = st.proposal.gateMint →
        castVote st voter tok now c nn vp = .error .accountAlreadyInUse) ∧
    (∀ (st : CoordState) (voter : Nat) (tok : TokenAccount) (now : Int)
        (c nn vp : Nat) (st' : CoordState),
        castVote st voter tok now c nn vp = .ok st' →
        hasVoteRecord st voter = false ∧
        st'.voteRecords = st.voteRecords ++
          [{ proposal := st.proposalKey, voter := voter, votedAt := now,
             encryptedChoice := c, nonce := nn, voterPubkey := vp }] ∧
        ((recordKeys st).Nodup → (recordKeys st').Nodup)) := by
  constructor
  · intro st voter tok now c nn vp hv ho hm
    unfold castVote
    rw [if_neg (by simp [ho, hm]), if_pos hv]
  · intro st voter tok now c nn vp st' h
    unfold castVote at h
    split_ifs at h with g1 g2 g3 g4 g5 g6 g7
    rw [Except.ok.injEq] at h
    subst h
    have hfresh : hasVoteRecord st voter = false := by
      simpa using g2
    refine ⟨hfresh, rfl, ?_⟩
    intro hnd
    have hnotin : (st.proposalKey, voter) ∉ recordKeys st := by
      intro hmem
      simp only [recordKeys, List.mem_map] at hmem
      obtain ⟨r, hr, hkey⟩ := hmem
      simp only [Prod.mk.injEq] at hkey
      have : hasVoteRecord st voter = true := by
        simp only [hasVoteRecord, List.any_eq_true]
        exact ⟨r, hr, by rw [hkey.1, hkey.2]; simp⟩
      rw [this] at hfresh
      exact absurd hfresh (by simp)
    simp only [recordKeys, List.map_append, List.map_cons, List.map_nil]
    rw [List.nodup_append]
    refine ⟨hnd, by simp, ?_⟩
    intro x hx hx'
    simp only [List.mem_singleton] at hx'
    subst hx'
    exact hnotin hx

/-- C5 (witness): with voter 7's record already present in `votedState`, a
second vote fails however the vote value is chosen; the first vote on
`delegatedState` required the record to be absent and appended it. -/
theorem c5_double_vote_witness :
    (castVote votedState 7 tok7 1 99 98 97 = .error .accountAlreadyInUse) ∧
    (hasVoteRecord delegatedState 7 = false ∧
     votedState.voteRecords = delegatedState.voteRecords ++
       [{ proposal := 5, voter := 7, votedAt := 0, encryptedChoice := 21,
          nonce := 22, voterPubkey := 23 }] ∧
     ((recordKeys delegatedState).Nodup → (recordKeys votedState).Nodup)) :=
  ⟨c5_double_vote_rejected_and_records_unique.1 votedState 7 tok7 1 99 98 97
     (by decide) rfl rfl,
   c5_double_vote_rejected_and_records_unique.2 delegatedState 7 tok7 0 21 22 23
     votedState rfl⟩

/-- C6: one accumulate step with choice `v ∈ {0,1,2}` increments exactly the
matching category counter and the total by 1 (wrapping u64/u32 addition) and
leaves the other two categories unchanged, whatever the prior tally — in both
the `VotingCircuit.cast_vote` embodiment (three independent equality tests)
and the `EncIx.vote` embodiment (if/else chain). -/
theorem c6_accumulate_classifies_exactly (s : VotingCircuit.VotingState) (v : Nat)
    (hwf : VotingCircuit.Wf s) (hv : v = 0 ∨ v = 1 ∨ v = 2) :
    ((VotingCircuit.cast_vote s v).encryptedTotalVotes =
        (s.encryptedTotalVotes + 1) % U64MOD) ∧
    (v = 0 →
       (VotingCircuit.cast_vote s v).encryptedNoVotes =
         (s.encryptedNoVotes + 1) % U64MOD ∧
       (VotingCircuit.cast_vote s v).encryptedYesVotes = s.encryptedYesVotes ∧
       (VotingCircuit.cast_vote s v).encryptedAbstainVotes = s.encryptedAbstainVotes) ∧
    (v = 1 →
       (VotingCircuit.cast_vote s v).encryptedYesVotes =
         (s.encryptedYesVotes + 1) % U64MOD ∧
       (VotingCircuit.cast_vote s v).encryptedNoVotes = s.encryptedNoVotes ∧
       (VotingCircuit.cast_vote s v).encryptedAbstainVotes = s.encryptedAbstainVotes) ∧
    (v = 2 →
       (VotingCircuit.cast_vote s v).encryptedAbstainVotes =
         (s.encryptedAbstainVotes + 1) % U64MOD ∧
       (VotingCircuit.cast_vote s v).encryptedYesVotes = s.encryptedYesVotes ∧
       (VotingCircuit.cast_vote s v).encryptedNoVotes = s.encryptedNoVotes) ∧
    (∀ tl : EncIx.VoteTally,
       ((EncIx.vote tl v).total_votes = (tl.total_votes + 1) % U32MOD) ∧
       (v = 0 →
          (EncIx.vote tl v).no_count = (tl.no_count + 1) % U32MOD ∧
          (EncIx.vote tl v).yes_count = tl.yes_count ∧
          (EncIx.vote tl v).abstain_count = tl.abstain_count) ∧
       (v = 1 →
          (EncIx.vote tl v).yes_count = (tl.yes_count + 1) % U32MOD ∧
          (EncIx.vote tl v).no_count = tl.no_count ∧
          (EncIx.vote tl v).abstain_count = tl.abstain_count) ∧
       (v = 2 →
          (EncIx.vote tl v).abstain_count = (tl.abstain_count + 1) % U32MOD ∧
          (EncIx.vote tl v).yes_count = tl.yes_count ∧
          (EncIx.vote tl v).no_count = tl.no_count)) := by
  obtain ⟨w1, w2, w3, w4⟩ := hwf
  rcases hv with rfl | rfl | rfl <;>
    refine ⟨?_, ?_, ?_, ?_, fun tl => ⟨?_, ?_, ?_, ?_⟩⟩ <;>
    simp [VotingCircuit.cast_vote, VotingCircuit.boolToU64, EncIx.vote,
          Nat.mod_eq_of_lt w1, Nat.mod_eq_of_lt w2, Nat.mod_eq_of_lt w3]

/-- C6 (witness). -/
theorem c6_accumulate_witness :
    (VotingCircuit.cast_vote ⟨3, 4, 5, 12⟩ 2).encryptedTotalVotes = (12 + 1) % U64MOD ∧
    (VotingCircuit.cast_vote ⟨3, 4, 5, 12⟩ 2).encryptedAbstainVotes = (5 + 1) % U64MOD ∧
    (EncIx.vote ⟨4, 3, 5, 12⟩ 2).abstain_count = (5 + 1) % U32MOD :=
  ⟨(c6_accumulate_classifies_exactly ⟨3, 4, 5, 12⟩ 2 (by decide)
      (Or.inr (Or.inr rfl))).1,
   ((c6_accumulate_classifies_exactly ⟨3, 4, 5, 12⟩ 2 (by decide)
      (Or.inr (Or.inr rfl))).2.2.2.1 rfl).1,
   (((c6_accumulate_classifies_exactly ⟨3, 4, 5, 12⟩ 2 (by decide)
      (Or.inr (Or.inr rfl))).2.2.2.2 ⟨4, 3, 5, 12⟩).2.2.2 rfl).1⟩

/-- C7 (counterexample): the claim quantifies over the accumulate step, but
in the `EncIx.vote` embodiment (src/lib.rs, cited by the claim) the
out-of-range choice 3 does not leave the category counters unchanged: it
increments `abstain_count`, and the resulting tally still satisfies the sum
invariant. -/
theorem c7_encix_vote_counts_invalid_as_abstain :
    (EncIx.vote EncIx.init_tally 3).abstain_count = 1 ∧
    ((EncIx.vote EncIx.init_tally 3).no_count +
      (EncIx.vote EncIx.init_tally 3).yes_count +
      (EncIx.vote EncIx.init_tally 3).abstain_count) % U32MOD =
      (EncIx.vote EncIx.init_tally 3).total_votes := by
  refine ⟨rfl, rfl⟩

/-- C7 (amended, restricted to the voting-circuit accumulate): for every
choice value outside {0,1,2}, `VotingCircuit.cast_vote` leaves yes, no and
abstain unchanged while still incrementing total by 1, so a tally satisfying
`yes + no + abstain == total` no longer satisfies it afterwards.  (In the
`EncIx.vote` embodiment such a choice instead increments `abstain_count`,
preserving the invariant.) -/
theorem c7_circuit_out_of_range_breaks_sum (s : VotingCircuit.VotingState) (v : Nat)
    (hwf : VotingCircuit.Wf s) (_hv : v < 256)
    (h0 : v ≠ 0) (h1 : v ≠ 1) (h2 : v ≠ 2) :
    (VotingCircuit.cast_vote s v).encryptedYesVotes = s.encryptedYesVotes ∧
    (VotingCircuit.cast_vote s v).encryptedNoVotes = s.encryptedNoVotes ∧
    (VotingCircuit.cast_vote s v).encryptedAbstainVotes = s.encryptedAbstainVotes ∧
    (VotingCircuit.cast_vote s v).encryptedTotalVotes =
      (s.encryptedTotalVotes + 1) % U64MOD ∧
    ((s.encryptedYesVotes + s.encryptedNoVotes + s.encryptedAbstainVotes) % U64MOD =
        s.encryptedTotalVotes →
      ¬ ((VotingCircuit.cast_vote s v).encryptedYesVotes +
          (VotingCircuit.cast_vote s v).encryptedNoVotes +
          (VotingCircuit.cast_vote s v).encryptedAbstainVotes) % U64MOD =
          (VotingCircuit.cast_vote s v).encryptedTotalVotes) := by
  obtain ⟨w1, w2, w3, w4⟩ := hwf
  have e0 : (v == 0) = false := by simp [h0]
  have e1 : (v == 1) = false := by simp [h1]
  have e2 : (v == 2) = false := by simp [h2]
  have hyes : (VotingCircuit.cast_vote s v).encryptedYesVotes = s.encryptedYesVotes := by
    simp [VotingCircuit.cast_vote, VotingCircuit.boolToU64, e1, Nat.mod_eq_of_lt w1]
  have hno : (VotingCircuit.cast_vote s v).encryptedNoVotes = s.encryptedNoVotes := by
    simp [VotingCircuit.cast_vote, VotingCircuit.boolToU64, e0, Nat.mod_eq_of_lt w2]
  have habs : (VotingCircuit.cast_vote s v).encryptedAbstainVotes =
      s.encryptedAbstainVotes := by
    simp [VotingCircuit.cast_vote, VotingCircuit.boolToU64, e2, Nat.mod_eq_of_lt w3]
  have htot : (VotingCircuit.cast_vote s v).encryptedTotalVotes =
      (s.encryptedTotalVotes + 1) % U64MOD := by
    simp [VotingCircuit.cast_vote]
  refine ⟨hyes, hno, habs, htot, ?_⟩
  intro hsum
  rw [hyes, hno, habs, htot, hsum]
  have hlt : s.encryptedTotalVotes < U64MOD := by
    rw [← hsum]
    exact Nat.mod_lt _ (by decide)
  simp only [U64MOD] at hlt ⊢
  omega

/-- C7 (witness). -/
theorem c7_circuit_out_of_range_witness :
    (VotingCircuit.cast_vote ⟨1, 1, 0, 2⟩ 3).encryptedAbstainVotes = 0 ∧
    ¬ ((VotingCircuit.cast_vote ⟨1, 1, 0, 2⟩ 3).encryptedYesVotes +
        (VotingCircuit.cast_vote ⟨1, 1, 0, 2⟩ 3).encryptedNoVotes +
        (VotingCircuit.cast_vote ⟨1, 1, 0, 2⟩ 3).encryptedAbstainVotes) % U64MOD =
        (VotingCircuit.cast_vote ⟨1, 1, 0, 2⟩ 3).encryptedTotalVotes :=
  ⟨(c7_circuit_out_of_range_breaks_sum ⟨1, 1, 0, 2⟩ 3 (by decide) (by decide)
      (by decide) (by decide) (by decide)).2.2.1,
   (c7_circuit_out_of_range_breaks_sum ⟨1, 1, 0, 2⟩ 3 (by decide) (by decide)
      (by decide) (by decide) (by decide)).2.2.2.2 (by decide)⟩

/-- C8 (counterexample): the claim's formula, applied to the aggregate
(2^60 YES, 0 NO), yields passed = true for thresholdBps = 1, but the
circuit's `finalize_with_threshold` computes `yes * 10000` with wrapping u64
multiplication (here wrapping to 0) and decides passed = false. -/
theorem c8_circuit_decision_deviates_on_overflow :
    (VotingCircuit.finalize_with_threshold bigYesState 0 1).2.2.2.2 = false ∧
    specGovernanceDecision 1152921504606846976 0 0 1152921504606846976 0 1 = true := by
  refine ⟨by decide, by decide⟩

/-- C8 (amended): the governance decision equals the spec's formula whenever
`yes + no` and `yes * 10000` fit in u64 — in particular the circuit's
`finalize_with_threshold` returns exactly the revealed aggregate together
with the formula's value then, and whenever the on-chain reveal callback
succeeds, the recorded `passed` equals the formula (its checked arithmetic
fails instead of deviating). -/
theorem c8_decision_matches_spec_formula :
    (∀ (s : VotingCircuit.VotingState) (quorum thresholdBps : Nat),
        s.encryptedYesVotes + s.encryptedNoVotes < U64MOD →
        s.encryptedYesVotes * 10000 < U64MOD →
        VotingCircuit.finalize_with_threshold s quorum thresholdBps =
          (s.encryptedYesVotes, s.encryptedNoVotes, s.encryptedAbstainVotes,
           s.encryptedTotalVotes,
           specGovernanceDecision s.encryptedYesVotes s.encryptedNoVotes
             s.encryptedAbstainVotes s.encryptedTotalVotes quorum thresholdBps)) ∧
    (∀ (p : Proposal) (y n a t : Nat) (p' : Proposal), t ≤ U64MAX →
        revealResultsCallback p y n a t = .ok p' →
        p'.passed = specGovernanceDecision y n a t p.quorum p.thresholdBps) := by
  constructor
  · intro s quorum thresholdBps hyn hmul
    simp [VotingCircuit.finalize_with_threshold, specGovernanceDecision,
          Nat.mod_eq_of_lt hyn, Nat.mod_eq_of_lt hmul]
  · intro p y n a t p' ht h
    have := ((revealCallback_ok_iff p y n a t ht p').mp h).2.2.2
    subst this
    rfl

/-- C8 (witness). -/
theorem c8_decision_witness :
    VotingCircuit.finalize_with_threshold ⟨3, 2, 5, 10⟩ 5 6000 =
      (3, 2, 5, 10, specGovernanceDecision 3 2 5 10 5 6000) ∧
    revealedAgain.passed = specGovernanceDecision 0 0 0 0 revealedP.quorum
      revealedP.thresholdBps :=
  ⟨c8_decision_matches_spec_formula.1 ⟨3, 2, 5, 10⟩ 5 6000 (by decide) (by decide),
   c8_decision_matches_spec_formula.2 revealedP 0 0 0 0 revealedAgain (by decide) rfl⟩

/-- C9 (counterexample): the claim says every embodiment of the threshold
computation fails with an arithmetic error when `yes * 10000` exceeds u64.
The circuit's `finalize_with_threshold` instead wraps the product
(2^60 * 10000 ≡ 0 mod 2^64) and produces a decision from the wrapped value:
it returns passed = false although the exact quotient 10000 meets the
5000 bps threshold. -/
theorem c9_circuit_mul_wraps_without_error :
    VotingCircuit.finalize_with_threshold bigYesState 0 5000 =
      (1152921504606846976, 0, 0, 1152921504606846976, false) ∧
    U64MAX < 1152921504606846976 * 10000 ∧
    (5000 : Nat) ≤ 1152921504606846976 * 10000 / 1152921504606846976 := by
  refine ⟨by decide, by decide, by decide⟩

/-- C9 (amended): the on-chain reveal callback's threshold computation uses
overflow-checked arithmetic: for every consistent, quorum-satisfying
aggregate with `yes * 10000` beyond u64, the callback fails with
`ArithmeticOverflow` rather than wrapping; the circuit's
`finalize_with_threshold` instead uses plain wrapping multiplication. -/
theorem c9_callback_overflow_errors (p : Proposal) (y n a t : Nat)
    (hsum : y + n + a = t) (ht : t ≤ U64MAX)
    (hq : p.quorum = 0 ∨ p.quorum ≤ t) (hov : U64MAX < y * 10000) :
    revealResultsCallback p y n a t = .error .ArithmeticOverflow := by
  have h1 : y + n ≤ U64MAX := by omega
  have h2 : y + n + a ≤ U64MAX := by omega
  have hqq : ¬ (0 < p.quorum ∧ t < p.quorum) := by omega
  have hy : 0 < y := by
    rcases Nat.eq_zero_or_pos y with hy0 | hy0
    · subst hy0; simp [U64MAX] at hov
    · exact hy0
  have hpos : 0 < y + n := by omega
  have hm : ¬ y * 10000 ≤ U64MAX := by omega
  simp [revealResultsCallback, checkedAdd64_pos h1, checkedAdd64_pos h2,
        Option.bind, hsum, hqq, hpos, checkedMul64_neg hm, Option.map]

/-- C9 (witness). -/
theorem c9_callback_overflow_witness :
    revealResultsCallback baseProposal 1152921504606846976 0 0 1152921504606846976 =
      .error .ArithmeticOverflow :=
  c9_callback_overflow_errors baseProposal 1152921504606846976 0 0 1152921504606846976
    (by decide) (by decide) (Or.inl rfl) (by decide)

/-- C10: in the `EncIx.vote` embodiment every choice other than 0 and 1 —
including out-of-range values such as 3 or 255 — increments `abstain_count`
while leaving `no_count` and `yes_count` unchanged, and the (u32-evaluated)
sum invariant `no + yes + abstain == total` is preserved by every `vote` call
for every input value. -/
theorem c10_encix_vote_preserves_sum (choice : Nat) (tl : EncIx.VoteTally) :
    ((choice ≠ 0 ∧ choice ≠ 1) →
       (EncIx.vote tl choice).abstain_count = (tl.abstain_count + 1) % U32MOD ∧
       (EncIx.vote tl choice).no_count = tl.no_count ∧
       (EncIx.vote tl choice).yes_count = tl.yes_count) ∧
    ((tl.no_count + tl.yes_count + tl.abstain_count) % U32MOD = tl.total_votes →
       ((EncIx.vote tl choice).no_count + (EncIx.vote tl choice).yes_count +
         (EncIx.vote tl choice).abstain_count) % U32MOD =
         (EncIx.vote tl choice).total_votes) := by
  by_cases h0 : choice = 0
  · subst h0
    refine ⟨fun h => absurd rfl h.1, ?_⟩
    intro hs
    simp [EncIx.vote]
    simp only [U32MOD] at hs ⊢
    omega
  · by_cases h1 : choice = 1
    · subst h1
      refine ⟨fun h => absurd rfl h.2, ?_⟩
      intro hs
      simp [EncIx.vote]
      simp only [U32MOD] at hs ⊢
      omega
    · refine ⟨fun _ => ?_, ?_⟩
      · simp [EncIx.vote, h0, h1]
      · intro hs
        simp [EncIx.vote, h0, h1]
        simp only [U32MOD] at hs ⊢
        omega

/-- C10 (witness). -/
theorem c10_encix_vote_witness :
    (EncIx.vote ⟨2, 3, 4, 9⟩ 255).abstain_count = (4 + 1) % U32MOD ∧
    ((EncIx.vote ⟨2, 3, 4, 9⟩ 255).no_count + (EncIx.vote ⟨2, 3, 4, 9⟩ 255).yes_count +
      (EncIx.vote ⟨2, 3, 4, 9⟩ 255).abstain_count) % U32MOD =
      (EncIx.vote ⟨2, 3, 4, 9⟩ 255).total_votes :=
  ⟨((c10_encix_vote_preserves_sum 255 ⟨2, 3, 4, 9⟩).1 ⟨by decide, by decide⟩).1,
   (c10_encix_vote_preserves_sum 255 ⟨2, 3, 4, 9⟩).2 (by decide)⟩

end PrivateDaoVoting
